import Mathlib

/-!
Verification of the frkr ingest gateway publish pipeline.

The embedding follows `internal/gateway/server/handlers.go` (the `IngestHandler`
of `IngestGatewayServer`) and `cmd/gateway/main.go` (`createTopicIfNotExists`).
External collaborators (JSON decoder, credential verifier, stream-topic lookup,
broker writer, broker admin connection) are modelled as oracle fields of an
environment record; the handler itself is translated statement by statement.
Every call the handler makes to a collaborator is recorded in a trace so that
"no downstream call is made" properties are statable.
-/

namespace FrkrIngest

/-- `leadsWith s p` is true when the character list `s` starts with `p`. -/
def leadsWith : List Char → List Char → Bool
  | _, [] => true
  | [], _ :: _ => false
  | c :: cs, d :: ds => c == d && leadsWith cs ds

/-- `occursIn p s` is true when `p` occurs as a contiguous run inside `s`. -/
def occursIn (p : List Char) : List Char → Bool
  | [] => p.isEmpty
  | c :: rest => leadsWith (c :: rest) p || occursIn p rest

/-- Go `strings.Contains(s, pat)`: case-sensitive substring test. -/
def goContains (s pat : String) : Bool :=
  occursIn pat.data s.data

/-- ASCII lowering of a string, as Go `strings.ToLower` acts on ASCII text. -/
def asciiLower (s : String) : String :=
  String.mk (s.data.map Char.toLower)

/-- One mirrored HTTP request record (`MirroredRequest` of the wire payload). -/
structure MirroredRequest where
  method : String
  path : String
  headers : List (String × String)
  body : String
  query : List (String × String)
  timestampNs : Int
  requestId : String
deriving DecidableEq, Repr

/-- The decoded wire payload (`IngestRequest`): a stream id plus one record. -/
structure IngestRequest where
  streamId : String
  request : MirroredRequest
deriving DecidableEq, Repr

/-- One message handed to the broker writer: topic, key and serialized value,
from the `kafka.Message` literal in the handler. -/
structure PublishCall where
  topic : String
  key : String
  value : String
deriving DecidableEq, Repr

/-- Calls the handler made to its collaborators, in the order of the code. -/
structure Trace where
  readyChecked : Bool
  decodeCalled : Bool
  authCalls : List String
  resolveCalls : List String
  publish : List PublishCall
  createTopicCalls : List String
deriving DecidableEq, Repr

/-- The trace of a handler run that touched no collaborator. -/
def emptyTrace : Trace :=
  { readyChecked := false, decodeCalled := false, authCalls := []
    resolveCalls := [], publish := [], createTopicCalls := [] }

/-- HTTP status plus response body. -/
structure HttpResponse where
  status : Nat
  body : String
deriving DecidableEq, Repr

/-- Go `http.Error(w, msg, code)` writes the message followed by a newline. -/
def httpError (code : Nat) (msg : String) : HttpResponse :=
  ⟨code, msg ++ "\n"⟩

/-- The HTTP-visible outcome of one handler run plus the collaborator trace. -/
structure Outcome where
  resp : HttpResponse
  trace : Trace
deriving Repr

/-- Oracle for the broker admin connection used by `createTopicIfNotExists`
(`cmd/gateway/main.go`): the dial to the broker, the controller lookup, the
dial to the controller, and the `CreateTopics` call; each `error` carries the
error text the real call would return. -/
structure BrokerEnv where
  dialBroker : Except String Unit
  getController : Except String Unit
  dialController : Except String Unit
  createTopics : Option String

/-- `createTopicIfNotExists` from `cmd/gateway/main.go` lines 199-236:
wraps each connection failure with its message, and treats a `CreateTopics`
error whose text contains "already exists" or "TOPIC_ALREADY_EXISTS" as
success (`nil`); `none` is the `nil` return, `some e` an error with text `e`. -/
def createTopicIfNotExists (b : BrokerEnv) : Option String :=
  match b.dialBroker with
  | .error e => some ("failed to connect to broker: " ++ e)
  | .ok _ =>
    match b.getController with
    | .error e => some ("failed to get controller: " ++ e)
    | .ok _ =>
      match b.dialController with
      | .error e => some ("failed to connect to controller: " ++ e)
      | .ok _ =>
        match b.createTopics with
        | none => none
        | some errStr =>
          if goContains errStr "already exists" || goContains errStr "TOPIC_ALREADY_EXISTS" then
            none
          else
            some ("failed to create topic: " ++ errStr)

/-- The missing-topic classification of the handler (`handlers.go` line 91):
a case-sensitive substring test against four markers. -/
def isMissingTopicErr (s : String) : Bool :=
  goContains s "Unknown Topic" || goContains s "does not exist" ||
    goContains s "UnknownTopic" || goContains s "topic or partition"

/-- Modelled from the spec: the spec's publish-failure classification, which is
not the code's — the spec (§4.3) prescribes a case-insensitive substring match
against the markers "unknown topic", "does not exist", "topic or partition".
Used only to compare the spec's classifier with `isMissingTopicErr`. -/
def specMissingTopicErr (s : String) : Bool :=
  let l := asciiLower s
  goContains l "unknown topic" || goContains l "does not exist" ||
    goContains l "topic or partition"

/-- Everything one run of `IngestHandler` observes from the outside world:
the request method, the readiness gate snapshot, the result of decoding the
body, and the collaborator oracles. `publishResult n` is the error returned by
the `n`-th `WriteMessages` call (`none` = success); `authenticate` and
`getStreamTopic` take the stream id the handler passes them. -/
structure HandlerEnv where
  method : String
  isReady : Bool
  decodeBody : Except String IngestRequest
  authenticate : String → Except String Unit
  getStreamTopic : String → Except String String
  serialize : MirroredRequest → Except String String
  publishResult : Nat → Option String
  broker : BrokerEnv

/-- `IngestHandler` from `internal/gateway/server/handlers.go` lines 20-127,
translated statement by statement. Method check, readiness check, JSON decode,
authentication, stream-topic lookup, serialization, first broker write,
missing-topic recovery (topic creation and one retried write), and the
success response `202 "OK"`. -/
def IngestHandler (env : HandlerEnv) : Outcome :=
  if env.method ≠ "POST" then
    ⟨httpError 405 "Method not allowed", emptyTrace⟩
  else
    let t0 : Trace := { emptyTrace with readyChecked := true }
    if env.isReady = false then
      ⟨httpError 503 "Service unavailable - dependencies not ready", t0⟩
    else
      let t1 : Trace := { t0 with decodeCalled := true }
      match env.decodeBody with
      | .error e => ⟨httpError 400 ("Invalid request: " ++ e), t1⟩
      | .ok req =>
        let t2 : Trace := { t1 with authCalls := [req.streamId] }
        match env.authenticate req.streamId with
        | .error _ => ⟨httpError 401 "Unauthorized", t2⟩
        | .ok _ =>
          let t3 : Trace := { t2 with resolveCalls := [req.streamId] }
          match env.getStreamTopic req.streamId with
          | .error _ => ⟨httpError 404 "Stream not found", t3⟩
          | .ok topic =>
            match env.serialize req.request with
            | .error _ => ⟨httpError 500 "Failed to serialize request", t3⟩
            | .ok messageData =>
              let call : PublishCall := ⟨topic, req.request.requestId, messageData⟩
              let t4 : Trace := { t3 with publish := [call] }
              match env.publishResult 0 with
              | none => ⟨⟨202, "OK"⟩, t4⟩
              | some errStr =>
                if isMissingTopicErr errStr then
                  let t5 : Trace := { t4 with createTopicCalls := [topic] }
                  match createTopicIfNotExists env.broker with
                  | some createErr =>
                    ⟨httpError 500 ("Topic not found and creation failed: " ++ createErr), t5⟩
                  | none =>
                    let t6 : Trace := { t5 with publish := t5.publish ++ [call] }
                    match env.publishResult 1 with
                    | some e2 => ⟨httpError 500 ("Failed to ingest request: " ++ e2), t6⟩
                    | none => ⟨⟨202, "OK"⟩, t6⟩
                else
                  ⟨httpError 500 ("Failed to ingest request: " ++ errStr), t4⟩

/-- A well-formed example payload, as in end-to-end scenario A of the spec. -/
def exMirrored : MirroredRequest :=
  { method := "GET", path := "/x", headers := [], body := "", query := []
    timestampNs := 0, requestId := "r1" }

/-- Example envelope for stream `s1`. -/
def exReq : IngestRequest :=
  { streamId := "s1", request := exMirrored }

/-- A broker admin oracle where every step succeeds. -/
def okBroker : BrokerEnv :=
  { dialBroker := .ok (), getController := .ok (), dialController := .ok ()
    createTopics := none }

/-- The happy-path environment: POST, ready, decodable body, passing
authentication, stream resolving to topic `t1`, successful serialization and
first write. -/
def envAccept : HandlerEnv :=
  { method := "POST", isReady := true, decodeBody := .ok exReq
    authenticate := fun _ => .ok (), getStreamTopic := fun _ => .ok "t1"
    serialize := fun _ => .ok "ser", publishResult := fun _ => none
    broker := okBroker }

/-- Environment that is not ready. -/
def envNotReady : HandlerEnv :=
  { envAccept with isReady := false }

/-- Environment whose credential verification fails. -/
def envAuthFail : HandlerEnv :=
  { envAccept with authenticate := fun _ => .error "basic auth validation failed" }

/-- Environment whose stream lookup reports no matching row. -/
def envResolveFail : HandlerEnv :=
  { envAccept with getStreamTopic := fun _ => .error "sql: no rows in result set" }

/-- Environment whose stream lookup fails with a driver connectivity error. -/
def envResolveDown : HandlerEnv :=
  { envAccept with getStreamTopic := fun _ => .error "pq: connection refused" }

/-- A GET request environment. -/
def envGet : HandlerEnv :=
  { envAccept with method := "GET" }

/-- A PUT request environment whose dependencies are also not ready. -/
def envPutNotReady : HandlerEnv :=
  { envAccept with method := "PUT", isReady := false }

/-- Environment whose first write fails with a lower-case missing-topic text. -/
def envLowerCaseErr : HandlerEnv :=
  { envAccept with publishResult := fun _ => some "unknown topic" }

/-- Environment whose first write fails with a recognized marker and whose
retry, after successful creation, succeeds. -/
def envMarkerRetry : HandlerEnv :=
  { envAccept with publishResult := fun n => if n = 0 then some "does not exist" else none }

/-- Environment whose first write fails with an unclassified broker error. -/
def envBoom : HandlerEnv :=
  { envAccept with publishResult := fun _ => some "boom" }

/-- Case analysis of the publish trace: it is empty, or the decoded envelope,
the resolved topic and the serialized data exist and every recorded write
carries that topic, the envelope's request id as key, and that data — once for
a single attempt, twice when the missing-topic recovery retried. -/
theorem publish_trace_cases (env : HandlerEnv) :
    (IngestHandler env).trace.publish = [] ∨
    ∃ req topic data, env.decodeBody = .ok req ∧
      env.getStreamTopic req.streamId = .ok topic ∧
      env.serialize req.request = .ok data ∧
      ((IngestHandler env).trace.publish = [⟨topic, req.request.requestId, data⟩] ∨
       (IngestHandler env).trace.publish =
         [⟨topic, req.request.requestId, data⟩, ⟨topic, req.request.requestId, data⟩]) := by
  by_cases hm : env.method = "POST"
  · by_cases hr : env.isReady = false
    · left; simp [IngestHandler, hm, hr, emptyTrace]
    · rcases hd : env.decodeBody with e | req
      · left; simp [IngestHandler, hm, hr, hd, emptyTrace]
      · rcases ha : env.authenticate req.streamId with e | u
        · left; simp [IngestHandler, hm, hr, hd, ha, emptyTrace]
        · rcases ht : env.getStreamTopic req.streamId with e | topic
          · left; simp [IngestHandler, hm, hr, hd, ha, ht, emptyTrace]
          · rcases hs : env.serialize req.request with e | data
            · left; simp [IngestHandler, hm, hr, hd, ha, ht, hs, emptyTrace]
            · refine Or.inr ⟨req, topic, data, rfl, ht, hs, ?_⟩
              rcases hp : env.publishResult 0 with _ | errStr
              · left; simp [IngestHandler, hm, hr, hd, ha, ht, hs, hp]
              · by_cases hcl : isMissingTopicErr errStr = true
                · rcases hct : createTopicIfNotExists env.broker with _ | cerr
                  · rcases hp1 : env.publishResult 1 with _ | e2
                    · right
                      simp [IngestHandler, hm, hr, hd, ha, ht, hs, hp, hcl, hct, hp1]
                    · right
                      simp [IngestHandler, hm, hr, hd, ha, ht, hs, hp, hcl, hct, hp1]
                  · left; simp [IngestHandler, hm, hr, hd, ha, ht, hs, hp, hcl, hct]
                · left; simp [IngestHandler, hm, hr, hd, ha, ht, hs, hp, hcl]
  · left; simp [IngestHandler, hm, emptyTrace]

/-- Case analysis of the topic-creation trace: it is empty, or the decoded
envelope and resolved topic exist and exactly that topic was created once. -/
theorem create_trace_cases (env : HandlerEnv) :
    (IngestHandler env).trace.createTopicCalls = [] ∨
    ∃ req topic, env.decodeBody = .ok req ∧
      env.getStreamTopic req.streamId = .ok topic ∧
      (IngestHandler env).trace.createTopicCalls = [topic] := by
  by_cases hm : env.method = "POST"
  · by_cases hr : env.isReady = false
    · left; simp [IngestHandler, hm, hr, emptyTrace]
    · rcases hd : env.decodeBody with e | req
      · left; simp [IngestHandler, hm, hr, hd, emptyTrace]
      · rcases ha : env.authenticate req.streamId with e | u
        · left; simp [IngestHandler, hm, hr, hd, ha, emptyTrace]
        · rcases ht : env.getStreamTopic req.streamId with e | topic
          · left; simp [IngestHandler, hm, hr, hd, ha, ht, emptyTrace]
          · rcases hs : env.serialize req.request with e | data
            · left; simp [IngestHandler, hm, hr, hd, ha, ht, hs, emptyTrace]
            · rcases hp : env.publishResult 0 with _ | errStr
              · left; simp [IngestHandler, hm, hr, hd, ha, ht, hs, hp, emptyTrace]
              · by_cases hcl : isMissingTopicErr errStr = true
                · refine Or.inr ⟨req, topic, rfl, ht, ?_⟩
                  rcases hct : createTopicIfNotExists env.broker with _ | cerr
                  · rcases hp1 : env.publishResult 1 with _ | e2
                    · simp [IngestHandler, hm, hr, hd, ha, ht, hs, hp, hcl, hct, hp1]
                    · simp [IngestHandler, hm, hr, hd, ha, ht, hs, hp, hcl, hct, hp1]
                  · simp [IngestHandler, hm, hr, hd, ha, ht, hs, hp, hcl, hct]
                · left; simp [IngestHandler, hm, hr, hd, ha, ht, hs, hp, hcl, emptyTrace]
  · left; simp [IngestHandler, hm, emptyTrace]

/-- C1: for a well-formed envelope with valid credentials and an existing,
authorized stream, when the first broker write succeeds, Ingest returns
202 with body "OK" and exactly one publish call is made, keyed by the
envelope's request id, to the topic returned by the resolver. -/
theorem ingest_accepted_single_publish (env : HandlerEnv) (req : IngestRequest)
    (topic data : String)
    (hm : env.method = "POST") (hr : env.isReady = true)
    (hd : env.decodeBody = .ok req)
    (ha : env.authenticate req.streamId = .ok ())
    (ht : env.getStreamTopic req.streamId = .ok topic)
    (hs : env.serialize req.request = .ok data)
    (hp : env.publishResult 0 = none) :
    (IngestHandler env).resp = ⟨202, "OK"⟩ ∧
    (IngestHandler env).trace.publish = [⟨topic, req.request.requestId, data⟩] := by
  simp [IngestHandler, hm, hr, hd, ha, ht, hs, hp]

/-- Witness for C1 at the happy-path environment. -/
theorem ingest_accepted_single_publish_witness :
    (IngestHandler envAccept).resp = ⟨202, "OK"⟩ ∧
    (IngestHandler envAccept).trace.publish = [⟨"t1", "r1", "ser"⟩] :=
  ingest_accepted_single_publish envAccept exReq "t1" "ser" rfl rfl rfl rfl rfl rfl rfl

/-- C2: on a POST when the readiness gate reports not-ready, the handler
returns 503 for any payload and the decoder, credential verifier, topic
resolver, publisher and topic creator are never invoked. -/
theorem ingest_not_ready_unavailable (env : HandlerEnv)
    (hm : env.method = "POST") (hr : env.isReady = false) :
    (IngestHandler env).resp.status = 503 ∧
    (IngestHandler env).trace.decodeCalled = false ∧
    (IngestHandler env).trace.authCalls = [] ∧
    (IngestHandler env).trace.resolveCalls = [] ∧
    (IngestHandler env).trace.publish = [] ∧
    (IngestHandler env).trace.createTopicCalls = [] := by
  simp [IngestHandler, hm, hr, emptyTrace, httpError]

/-- Witness for C2 at the not-ready environment. -/
theorem ingest_not_ready_unavailable_witness :
    (IngestHandler envNotReady).resp.status = 503 ∧
    (IngestHandler envNotReady).trace.publish = [] :=
  ⟨(ingest_not_ready_unavailable envNotReady rfl rfl).1,
   (ingest_not_ready_unavailable envNotReady rfl rfl).2.2.2.2.1⟩

/-- C3: an authentication failure yields 401 with no resolver, publish or
creation call; moreover in every execution each published message's topic and
each created topic is exactly the topic the trusted resolver returned for the
decoded envelope's stream id — never a client-supplied name. -/
theorem ingest_auth_precedes_resolution :
    (∀ (env : HandlerEnv) (req : IngestRequest) (e : String),
        env.method = "POST" → env.isReady = true → env.decodeBody = .ok req →
        env.authenticate req.streamId = .error e →
        (IngestHandler env).resp.status = 401 ∧
        (IngestHandler env).trace.resolveCalls = [] ∧
        (IngestHandler env).trace.publish = [] ∧
        (IngestHandler env).trace.createTopicCalls = []) ∧
    (∀ (env : HandlerEnv) (c : PublishCall), c ∈ (IngestHandler env).trace.publish →
        ∃ req, env.decodeBody = .ok req ∧
          env.getStreamTopic req.streamId = .ok c.topic) ∧
    (∀ (env : HandlerEnv) (t : String), t ∈ (IngestHandler env).trace.createTopicCalls →
        ∃ req, env.decodeBody = .ok req ∧
          env.getStreamTopic req.streamId = .ok t) := by
  refine ⟨?_, ?_, ?_⟩
  · intro env req e hm hr hd ha
    simp [IngestHandler, hm, hr, hd, ha, emptyTrace, httpError]
  · intro env c hc
    rcases publish_trace_cases env with h | ⟨req, topic, data, hd, ht, _, h | h⟩ <;>
      rw [h] at hc <;> simp at hc
    · exact ⟨req, hd, by rw [hc]; exact ht⟩
    · exact ⟨req, hd, by rw [hc]; exact ht⟩
  · intro env t ht'
    rcases create_trace_cases env with h | ⟨req, topic, hd, ht, h⟩ <;>
      rw [h] at ht' <;> simp at ht'
    exact ⟨req, hd, by rw [ht']; exact ht⟩

/-- Witness for C3 at the failing-authentication environment. -/
theorem ingest_auth_precedes_resolution_witness :
    (IngestHandler envAuthFail).resp.status = 401 ∧
    (IngestHandler envAuthFail).trace.resolveCalls = [] ∧
    (IngestHandler envAuthFail).trace.publish = [] :=
  ⟨(ingest_auth_precedes_resolution.1 envAuthFail exReq
      "basic auth validation failed" rfl rfl rfl rfl).1,
   (ingest_auth_precedes_resolution.1 envAuthFail exReq
      "basic auth validation failed" rfl rfl rfl rfl).2.1,
   (ingest_auth_precedes_resolution.1 envAuthFail exReq
      "basic auth validation failed" rfl rfl rfl rfl).2.2.1⟩

/-- C7: after readiness, decoding and authentication succeed, a failed stream
lookup yields 404 and neither a publish nor a topic creation is attempted. -/
theorem ingest_stream_not_found (env : HandlerEnv) (req : IngestRequest) (e : String)
    (hm : env.method = "POST") (hr : env.isReady = true)
    (hd : env.decodeBody = .ok req)
    (ha : env.authenticate req.streamId = .ok ())
    (ht : env.getStreamTopic req.streamId = .error e) :
    (IngestHandler env).resp.status = 404 ∧
    (IngestHandler env).trace.publish = [] ∧
    (IngestHandler env).trace.createTopicCalls = [] := by
  simp [IngestHandler, hm, hr, hd, ha, ht, emptyTrace, httpError]

/-- Witness for C7 at the no-rows resolver environment. -/
theorem ingest_stream_not_found_witness :
    (IngestHandler envResolveFail).resp.status = 404 ∧
    (IngestHandler envResolveFail).trace.publish = [] :=
  ⟨(ingest_stream_not_found envResolveFail exReq "sql: no rows in result set"
      rfl rfl rfl rfl rfl).1,
   (ingest_stream_not_found envResolveFail exReq "sql: no rows in result set"
      rfl rfl rfl rfl rfl).2.1⟩

/-- C8: any request whose method is not POST is answered with 405. -/
theorem ingest_non_post_method_not_allowed (env : HandlerEnv)
    (hm : env.method ≠ "POST") :
    (IngestHandler env).resp.status = 405 := by
  simp [IngestHandler, hm, httpError]

/-- Witness for C8 at a GET request. -/
theorem ingest_non_post_method_not_allowed_witness :
    (IngestHandler envGet).resp.status = 405 :=
  ingest_non_post_method_not_allowed envGet (by decide)

/-- C9: every resolver error after successful authentication — whatever its
text, a missing row as well as a driver connectivity failure — is mapped to
404, never to 500 or 503. -/
theorem ingest_resolver_error_always_not_found (env : HandlerEnv)
    (req : IngestRequest) (e : String)
    (hm : env.method = "POST") (hr : env.isReady = true)
    (hd : env.decodeBody = .ok req)
    (ha : env.authenticate req.streamId = .ok ())
    (ht : env.getStreamTopic req.streamId = .error e) :
    (IngestHandler env).resp.status = 404 ∧
    (IngestHandler env).resp.status ≠ 500 ∧
    (IngestHandler env).resp.status ≠ 503 := by
  simp [IngestHandler, hm, hr, hd, ha, ht, httpError]

/-- Witness for C9 at a resolver that fails with a connectivity error. -/
theorem ingest_resolver_error_always_not_found_witness :
    (IngestHandler envResolveDown).resp.status = 404 ∧
    (IngestHandler envResolveDown).resp.status ≠ 500 :=
  ⟨(ingest_resolver_error_always_not_found envResolveDown exReq
      "pq: connection refused" rfl rfl rfl rfl rfl).1,
   (ingest_resolver_error_always_not_found envResolveDown exReq
      "pq: connection refused" rfl rfl rfl rfl rfl).2.1⟩

/-- C10: the method check precedes the readiness check — a non-POST request is
answered 405 with an empty trace (in particular the gate was not consulted),
and the response does not depend on the readiness state at all. -/
theorem ingest_method_check_precedes_readiness (env : HandlerEnv)
    (hm : env.method ≠ "POST") :
    (IngestHandler env).resp.status = 405 ∧
    (IngestHandler env).trace = emptyTrace ∧
    (IngestHandler env).trace.readyChecked = false ∧
    ∀ b : Bool, IngestHandler { env with isReady := b } = IngestHandler env := by
  refine ⟨?_, ?_, ?_, ?_⟩
  · simp [IngestHandler, hm, httpError]
  · simp [IngestHandler, hm]
  · simp [IngestHandler, hm, emptyTrace]
  · intro b
    simp [IngestHandler, hm]

/-- C4 counterexample: the claim's case-insensitive classification accepts the
lower-case error text "unknown topic", yet on that publish error the handler
makes no creation attempt and fails immediately with 500 — the code's
classification is case-sensitive. -/
theorem publish_error_classification_counterexample :
    specMissingTopicErr "unknown topic" = true ∧
    isMissingTopicErr "unknown topic" = false ∧
    (IngestHandler envLowerCaseErr).trace.createTopicCalls = [] ∧
    (IngestHandler envLowerCaseErr).resp.status = 500 := by
  decide

/-- C4 (amended): creation is attempted exactly when the publish error text
contains, case-sensitively, one of "Unknown Topic", "does not exist",
"UnknownTopic", "topic or partition"; on any other error text no creation
attempt occurs and the failure is surfaced immediately as a 500. -/
theorem publish_error_classification (env : HandlerEnv) (req : IngestRequest)
    (topic data errStr : String)
    (hm : env.method = "POST") (hr : env.isReady = true)
    (hd : env.decodeBody = .ok req)
    (ha : env.authenticate req.streamId = .ok ())
    (ht : env.getStreamTopic req.streamId = .ok topic)
    (hs : env.serialize req.request = .ok data)
    (hp : env.publishResult 0 = some errStr) :
    (isMissingTopicErr errStr = true →
      (IngestHandler env).trace.createTopicCalls = [topic]) ∧
    (isMissingTopicErr errStr = false →
      (IngestHandler env).trace.createTopicCalls = [] ∧
      (IngestHandler env).resp.status = 500 ∧
      (IngestHandler env).resp.body = "Failed to ingest request: " ++ errStr ++ "\n") := by
  constructor
  · intro hcl
    rcases hct : createTopicIfNotExists env.broker with _ | cerr
    · rcases hp1 : env.publishResult 1 with _ | e2 <;>
        simp [IngestHandler, hm, hr, hd, ha, ht, hs, hp, hcl, hct, hp1]
    · simp [IngestHandler, hm, hr, hd, ha, ht, hs, hp, hcl, hct]
  · intro hcl
    simp [IngestHandler, hm, hr, hd, ha, ht, hs, hp, hcl, emptyTrace, httpError]

/-- Witness for the amended C4: the marker "does not exist" triggers exactly
one creation attempt for the resolved topic. -/
theorem publish_error_classification_witness :
    isMissingTopicErr "does not exist" = true ∧
    (IngestHandler envMarkerRetry).trace.createTopicCalls = ["t1"] :=
  ⟨by decide,
   (publish_error_classification envMarkerRetry exReq "t1" "ser" "does not exist"
      rfl rfl rfl rfl rfl rfl rfl).1 (by decide)⟩

/-- C5: the publish is attempted at most twice in every execution; after a
missing-topic classification, a creation failure yields 500 with no retried
publish, creation success (including the topic already existing, which
`createTopicIfNotExists` reports as success) leads to exactly one retry whose
own failure yields 500 and whose success yields 202 "OK". -/
theorem publish_retry_discipline :
    (∀ env : HandlerEnv, (IngestHandler env).trace.publish.length ≤ 2) ∧
    (∀ (env : HandlerEnv) (req : IngestRequest) (topic data errStr : String),
      env.method = "POST" → env.isReady = true →
      env.decodeBody = .ok req → env.authenticate req.streamId = .ok () →
      env.getStreamTopic req.streamId = .ok topic →
      env.serialize req.request = .ok data →
      env.publishResult 0 = some errStr → isMissingTopicErr errStr = true →
      ((∀ cerr, createTopicIfNotExists env.broker = some cerr →
          (IngestHandler env).resp.status = 500 ∧
          (IngestHandler env).trace.publish.length = 1) ∧
       (createTopicIfNotExists env.broker = none →
          (IngestHandler env).trace.publish.length = 2 ∧
          (env.publishResult 1 = none → (IngestHandler env).resp = ⟨202, "OK"⟩) ∧
          (∀ e2, env.publishResult 1 = some e2 →
            (IngestHandler env).resp.status = 500)))) ∧
    (∀ (b : BrokerEnv) (s : String),
      b.dialBroker = .ok () → b.getController = .ok () → b.dialController = .ok () →
      b.createTopics = some s → goContains s "already exists" = true →
      createTopicIfNotExists b = none) := by
  refine ⟨?_, ?_, ?_⟩
  · intro env
    rcases publish_trace_cases env with h | ⟨req, topic, data, _, _, _, h | h⟩ <;>
      simp [h]
  · intro env req topic data errStr hm hr hd ha ht hs hp hcl
    constructor
    · intro cerr hct
      simp [IngestHandler, hm, hr, hd, ha, ht, hs, hp, hcl, hct, httpError]
    · intro hct
      refine ⟨?_, ?_, ?_⟩
      · rcases hp1 : env.publishResult 1 with _ | e2 <;>
          simp [IngestHandler, hm, hr, hd, ha, ht, hs, hp, hcl, hct, hp1]
      · intro hp1
        simp [IngestHandler, hm, hr, hd, ha, ht, hs, hp, hcl, hct, hp1]
      · intro e2 hp1
        simp [IngestHandler, hm, hr, hd, ha, ht, hs, hp, hcl, hct, hp1, httpError]
  · intro b s h1 h2 h3 h4 hae
    simp [createTopicIfNotExists, h1, h2, h3, h4, hae]

/-- Witness for C5: marker error on the first write, successful creation,
successful retry — two writes in total and a 202 "OK" response. -/
theorem publish_retry_discipline_witness :
    (IngestHandler envMarkerRetry).resp = ⟨202, "OK"⟩ ∧
    (IngestHandler envMarkerRetry).trace.publish.length = 2 :=
  ⟨((publish_retry_discipline.2.1 envMarkerRetry exReq "t1" "ser" "does not exist"
      rfl rfl rfl rfl rfl rfl rfl (by decide)).2 rfl).2.1 rfl,
   ((publish_retry_discipline.2.1 envMarkerRetry exReq "t1" "ser" "does not exist"
      rfl rfl rfl rfl rfl rfl rfl (by decide)).2 rfl).1⟩

/-- C6 counterexample: a broker write failure with error text "boom" is
answered with a 500 whose body embeds the broker error string verbatim —
internal causes are disclosed to the caller, contrary to the claim. -/
theorem error_responses_disclosure_counterexample :
    (IngestHandler envBoom).resp.status = 500 ∧
    (IngestHandler envBoom).resp.body = "Failed to ingest request: boom\n" ∧
    goContains (IngestHandler envBoom).resp.body "boom" = true := by
  decide

/-- C6 (amended): the authentication failure cause and the resolver's error
are never disclosed — the 401 body is exactly "Unauthorized" and the 404 body
exactly "Stream not found" — but decode errors, topic-creation errors and
broker publish error strings are embedded in the 400/500 response bodies. -/
theorem error_responses_disclosure :
    (∀ (env : HandlerEnv) (req : IngestRequest) (e : String),
        env.method = "POST" → env.isReady = true → env.decodeBody = .ok req →
        env.authenticate req.streamId = .error e →
        (IngestHandler env).resp.body = "Unauthorized\n") ∧
    (∀ (env : HandlerEnv) (req : IngestRequest) (e : String),
        env.method = "POST" → env.isReady = true → env.decodeBody = .ok req →
        env.authenticate req.streamId = .ok () →
        env.getStreamTopic req.streamId = .error e →
        (IngestHandler env).resp.body = "Stream not found\n") ∧
    (∀ (env : HandlerEnv) (e : String),
        env.method = "POST" → env.isReady = true → env.decodeBody = .error e →
        (IngestHandler env).resp.body = "Invalid request: " ++ e ++ "\n") ∧
    (∀ (env : HandlerEnv) (req : IngestRequest) (topic data e : String),
        env.method = "POST" → env.isReady = true → env.decodeBody = .ok req →
        env.authenticate req.streamId = .ok () →
        env.getStreamTopic req.streamId = .ok topic →
        env.serialize req.request = .ok data →
        env.publishResult 0 = some e → isMissingTopicErr e = false →
        (IngestHandler env).resp.body = "Failed to ingest request: " ++ e ++ "\n") ∧
    (∀ (env : HandlerEnv) (req : IngestRequest) (topic data e cerr : String),
        env.method = "POST" → env.isReady = true → env.decodeBody = .ok req →
        env.authenticate req.streamId = .ok () →
        env.getStreamTopic req.streamId = .ok topic →
        env.serialize req.request = .ok data →
        env.publishResult 0 = some e → isMissingTopicErr e = true →
        createTopicIfNotExists env.broker = some cerr →
        (IngestHandler env).resp.body =
          "Topic not found and creation failed: " ++ cerr ++ "\n") ∧
    (∀ (env : HandlerEnv) (req : IngestRequest) (topic data e e2 : String),
        env.method = "POST" → env.isReady = true → env.decodeBody = .ok req →
        env.authenticate req.streamId = .ok () →
        env.getStreamTopic req.streamId = .ok topic →
        env.serialize req.request = .ok data →
        env.publishResult 0 = some e → isMissingTopicErr e = true →
        createTopicIfNotExists env.broker = none →
        env.publishResult 1 = some e2 →
        (IngestHandler env).resp.body = "Failed to ingest request: " ++ e2 ++ "\n") := by
  refine ⟨?_, ?_, ?_, ?_, ?_, ?_⟩
  · intro env req e hm hr hd ha
    simp [IngestHandler, hm, hr, hd, ha, httpError]
  · intro env req e hm hr hd ha ht
    simp [IngestHandler, hm, hr, hd, ha, ht, httpError]
  · intro env e hm hr hd
    simp [IngestHandler, hm, hr, hd, httpError]
  · intro env req topic data e hm hr hd ha ht hs hp hcl
    simp [IngestHandler, hm, hr, hd, ha, ht, hs, hp, hcl, httpError]
  · intro env req topic data e cerr hm hr hd ha ht hs hp hcl hct
    simp [IngestHandler, hm, hr, hd, ha, ht, hs, hp, hcl, hct, httpError]
  · intro env req topic data e e2 hm hr hd ha ht hs hp hcl hct hp1
    simp [IngestHandler, hm, hr, hd, ha, ht, hs, hp, hcl, hct, hp1, httpError]

/-- Witness for the amended C6: the 401 body at a failing-authentication
environment is exactly "Unauthorized" with a newline, cause omitted. -/
theorem error_responses_disclosure_witness :
    (IngestHandler envAuthFail).resp.body = "Unauthorized\n" :=
  error_responses_disclosure.1 envAuthFail exReq "basic auth validation failed"
    rfl rfl rfl rfl

/-- Witness for C10 at a PUT request with dependencies not ready. -/
theorem ingest_method_check_precedes_readiness_witness :
    (IngestHandler envPutNotReady).resp.status = 405 ∧
    (IngestHandler envPutNotReady).trace.readyChecked = false :=
  ⟨(ingest_method_check_precedes_readiness envPutNotReady (by decide)).1,
   (ingest_method_check_precedes_readiness envPutNotReady (by decide)).2.2.1⟩

end FrkrIngest
